import Mathlib

/-!
Shallow embedding of the packet-record classification/normalization engine and
the filter-and-aggregate export engine of the `parse_pcap` example
(`pcap_parser.py` and `json_exporter.py`).

Modelling conventions:
* A decoded scapy packet becomes a `RawFrame`: each recognised layer is an
  `Option` field (`haslayer(X)` is `isSome`, `packet[X]` is the carried value).
  The `malformed` flag models a frame for which `_extract_packet_info` raises
  an exception somewhere in its body (the code catches any exception and
  returns `None`).
* The packet dictionary built by `_extract_packet_info` becomes the `Packet`
  structure; dictionary keys that are only present on some code paths
  (`source_ip`, ports, `packet_data`) are `Option` fields.
* The JSON string stored under `packet_data` is modelled as the tagged union
  `PacketData`, one variant per protocol branch, carrying exactly the fields
  the code serialises.
* Python truthiness in `_apply_filters` (`if key in filters and filters[key]`)
  is modelled by `Option` fields plus an explicit falsiness test: a present
  string is falsy iff empty, a present number is falsy iff zero.
* `_calculate_statistics` returns `{}` (the empty dict) on empty input and a
  fully-populated dict otherwise; this is modelled as `Option Statistics`,
  with `none` standing for the empty dict.
* Python dicts preserve insertion order; the frequency dicts are modelled as
  insertion-ordered association lists, and `sorted(..., reverse=True)` (a
  stable sort) as a stable descending insertion sort.
* Timestamps are modelled as natural numbers; `sum/len` (Python true
  division) is modelled as exact division in `ℚ`.
-/

/-- The IPv4 layer of a scapy packet (`packet[IP]`): the fields read by the parser. -/
structure IPv4Layer where
  src : String
  dst : String
deriving Repr, DecidableEq

/-- The IPv6 layer of a scapy packet (`packet[IPv6]`). -/
structure IPv6Layer where
  src : String
  dst : String
deriving Repr, DecidableEq

/-- The TCP layer of a scapy packet (`packet[TCP]`): the fields read by the parser. -/
structure TCPLayer where
  sport : Nat
  dport : Nat
  flags : String
  seq : Nat
  ack : Nat
  window : Nat
deriving Repr, DecidableEq

/-- The UDP layer of a scapy packet (`packet[UDP]`). -/
structure UDPLayer where
  sport : Nat
  dport : Nat
  len : Nat
  chksum : Nat
deriving Repr, DecidableEq

/-- The ICMP layer of a scapy packet (`packet[ICMP]`). -/
structure ICMPLayer where
  icmp_type : Nat
  icmp_code : Nat
deriving Repr, DecidableEq

/-- A decoded raw frame, as handed to `PCAPParser._extract_packet_info`.
`time` is `packet.time`, `size` is `len(packet)`, each layer field is `some`
iff `packet.haslayer(...)` holds, `summary` is `packet.summary()`, `layers`
is `[layer.name for layer in packet.layers()]`, and `malformed` models a
frame on which extraction raises an exception. -/
structure RawFrame where
  time : Nat
  size : Nat
  ip : Option IPv4Layer
  ipv6 : Option IPv6Layer
  tcp : Option TCPLayer
  udp : Option UDPLayer
  icmp : Option ICMPLayer
  summary : String
  layers : List String
  malformed : Bool
deriving Repr, DecidableEq

/-- The protocol-specific `packet_data` JSON payload, one variant per branch of
`_extract_packet_info`. -/
inductive PacketData where
  | tcpData (tcp_flags : String) (tcp_seq tcp_ack tcp_window : Nat)
  | udpData (udp_length udp_checksum : Nat)
  | icmpData (icmp_type icmp_code : Nat)
  | otherData (packet_summary : String) (packet_layers : List String)
deriving Repr, DecidableEq

/-- The normalized record dictionary built by `_extract_packet_info`.
Keys that only some code paths insert are `Option` fields. -/
structure Packet where
  timestamp : Nat
  packet_size : Nat
  file_name : String
  packet_data : Option PacketData
  source_ip : Option String
  destination_ip : Option String
  source_port : Option Nat
  destination_port : Option Nat
  protocol : String
deriving Repr, DecidableEq

/-- Model of `PCAPParser._extract_packet_info`: classify one frame into a normalized
record, or `none` when extraction raises (mirrors the `try/except` returning
`None`).  The branch structure mirrors the code: IPv4 first (refined by
TCP/UDP/ICMP in that order), else IPv6 (refined by TCP/UDP), else `Other`. -/
def extract_packet_info (packet : RawFrame) (file_name : String) : Option Packet :=
  if packet.malformed then none else
  let base : Packet :=
    { timestamp := packet.time
      packet_size := packet.size
      file_name := file_name
      packet_data := none
      source_ip := none
      destination_ip := none
      source_port := none
      destination_port := none
      protocol := "" }
  match packet.ip with
  | some ip_layer =>
    let withIp := { base with
      source_ip := some ip_layer.src
      destination_ip := some ip_layer.dst
      protocol := "IP" }
    match packet.tcp with
    | some tcp_layer =>
      some { withIp with
        source_port := some tcp_layer.sport
        destination_port := some tcp_layer.dport
        protocol := "TCP"
        packet_data := some (.tcpData tcp_layer.flags tcp_layer.seq
          tcp_layer.ack tcp_layer.window) }
    | none =>
      match packet.udp with
      | some udp_layer =>
        some { withIp with
          source_port := some udp_layer.sport
          destination_port := some udp_layer.dport
          protocol := "UDP"
          packet_data := some (.udpData udp_layer.len udp_layer.chksum) }
      | none =>
        match packet.icmp with
        | some icmp_layer =>
          some { withIp with
            protocol := "ICMP"
            packet_data := some (.icmpData icmp_layer.icmp_type icmp_layer.icmp_code) }
        | none => some withIp
  | none =>
    match packet.ipv6 with
    | some ipv6_layer =>
      let withIpv6 := { base with
        source_ip := some ipv6_layer.src
        destination_ip := some ipv6_layer.dst
        protocol := "IPv6" }
      match packet.tcp with
      | some tcp_layer =>
        some { withIpv6 with
          source_port := some tcp_layer.sport
          destination_port := some tcp_layer.dport
          protocol := "TCPv6" }
      | none =>
        match packet.udp with
        | some udp_layer =>
          some { withIpv6 with
            source_port := some udp_layer.sport
            destination_port := some udp_layer.dport
            protocol := "UDPv6" }
        | none => some withIpv6
    | none =>
      some { base with
        protocol := "Other"
        packet_data := some (.otherData packet.summary packet.layers) }

/-- The classification loop of `parse_pcap_file`: each frame is classified
independently; a frame whose extraction fails (`None` / exception, both caught)
contributes nothing and the loop continues. -/
def classify_packets (packets : List RawFrame) (file_name : String) : List Packet :=
  packets.filterMap (fun p => extract_packet_info p file_name)

/-- The packet-cap step of `parse_pcap_file`:
`if self.max_packets_per_file and len(packets) > self.max_packets_per_file:
packets = packets[:self.max_packets_per_file]`.  A cap of `0` is falsy in
Python, so no truncation happens then. -/
def truncate_packets (cap : Nat) (packets : List RawFrame) : List RawFrame :=
  if cap ≠ 0 ∧ packets.length > cap then packets.take cap else packets

/-- Model of `PCAPParser.parse_pcap_file` after the external `rdpcap` call: apply the
packet cap, then classify each remaining frame in order. -/
def parse_pcap_file (packets : List RawFrame) (file_name : String) (cap : Nat) :
    List Packet :=
  classify_packets (truncate_packets cap packets) file_name

/-- A filter criteria dictionary for `JSONExporter._apply_filters`.
`none` models an absent key; `some v` a present value, which the code only
acts on when `v` is truthy (non-empty string / non-zero number). -/
structure FilterSpec where
  protocol : Option String := none
  ip_address : Option String := none
  port : Option Nat := none
  min_size : Option Nat := none
  max_size : Option Nat := none
  start_time : Option Nat := none
  end_time : Option Nat := none
deriving Repr, DecidableEq

/-- Mirrors `if protocol in filters and filters[protocol]: ... p.get(protocol) == filters[protocol]`. -/
def filter_protocol (o : Option String) (f : List Packet) : List Packet :=
  match o with
  | some pr => if pr = "" then f else f.filter (fun p => p.protocol == pr)
  | none => f

/-- Mirrors `if ip_address in filters and filters[ip_address]:
... p.get(source_ip) == ip or p.get(destination_ip) == ip`. -/
def filter_ip_address (o : Option String) (f : List Packet) : List Packet :=
  match o with
  | some ip => if ip = "" then f
      else f.filter (fun p => p.source_ip == some ip || p.destination_ip == some ip)
  | none => f

/-- Mirrors `if port in filters and filters[port]:
... p.get(source_port) == port or p.get(destination_port) == port`. -/
def filter_port (o : Option Nat) (f : List Packet) : List Packet :=
  match o with
  | some port => if port = 0 then f
      else f.filter (fun p => p.source_port == some port || p.destination_port == some port)
  | none => f

/-- Mirrors `if min_size in filters and filters[min_size]:
... p.get(packet_size, 0) >= filters[min_size]`. -/
def filter_min_size (o : Option Nat) (f : List Packet) : List Packet :=
  match o with
  | some m => if m = 0 then f else f.filter (fun p => m ≤ p.packet_size)
  | none => f

/-- Mirrors `if max_size in filters and filters[max_size]:
... p.get(packet_size, 0) <= filters[max_size]`. -/
def filter_max_size (o : Option Nat) (f : List Packet) : List Packet :=
  match o with
  | some m => if m = 0 then f else f.filter (fun p => p.packet_size ≤ m)
  | none => f

/-- Mirrors `if start_time in filters and filters[start_time]:
... timestamp >= start_time` (time values modelled as already parsed). -/
def filter_start_time (o : Option Nat) (f : List Packet) : List Packet :=
  match o with
  | some t => f.filter (fun p => t ≤ p.timestamp)
  | none => f

/-- Mirrors `if end_time in filters and filters[end_time]: ... timestamp <= end_time`. -/
def filter_end_time (o : Option Nat) (f : List Packet) : List Packet :=
  match o with
  | some t => f.filter (fun p => p.timestamp ≤ t)
  | none => f

/-- Model of `JSONExporter._apply_filters`: the seven conditional filter passes applied
in the order of the code. -/
def apply_filters (packets_data : List Packet) (filters : FilterSpec) : List Packet :=
  filter_end_time filters.end_time
    (filter_start_time filters.start_time
      (filter_max_size filters.max_size
        (filter_min_size filters.min_size
          (filter_port filters.port
            (filter_ip_address filters.ip_address
              (filter_protocol filters.protocol packets_data))))))

/-- Mirrors `protocols.get(protocol, 0) + 1` over an insertion-ordered dict modelled
as an association list. -/
def bump {α : Type} [DecidableEq α] (m : List (α × Nat)) (k : α) : List (α × Nat) :=
  match m with
  | [] => [(k, 1)]
  | (k', v) :: rest => if k' = k then (k', v + 1) :: rest else (k', v) :: bump rest k

/-- Insert into a descending-by-count list after all entries with a count
`≥` the new one (the stable placement `sorted(..., reverse=True)` gives). -/
def insertDesc {α : Type} (x : α × Nat) : List (α × Nat) → List (α × Nat)
  | [] => [x]
  | y :: ys => if y.2 < x.2 then x :: y :: ys else y :: insertDesc x ys

/-- Mirrors `dict(sorted(d.items(), key=lambda x: x[1], reverse=True)[:10])`:
stable descending sort by count, keep the first ten entries. -/
def top10 {α : Type} (m : List (α × Nat)) : List (α × Nat) :=
  (m.foldl (fun acc x => insertDesc x acc) []).take 10

/-- The `packet_size_stats` sub-dictionary. -/
structure PacketSizeStats where
  min : Nat
  max : Nat
  average : ℚ
  total_bytes : Nat
deriving Repr, DecidableEq

/-- The statistics dictionary built by `_calculate_statistics` on non-empty
input. -/
structure Statistics where
  total_packets : Nat
  protocol_distribution : List (String × Nat)
  top_source_ips : List (String × Nat)
  top_destination_ips : List (String × Nat)
  top_source_ports : List (Nat × Nat)
  top_destination_ports : List (Nat × Nat)
  packet_size_stats : PacketSizeStats
deriving Repr, DecidableEq

/-- The `protocols` frequency dict (`packet.get(protocol, Unknown)`;
our records always carry a protocol). -/
def protocol_distribution (packets_data : List Packet) : List (String × Nat) :=
  packets_data.foldl (fun m p => bump m p.protocol) []

/-- A frequency dict over an optional field, counting only truthy values
(`if packet.get(source_ip): ...`); a present empty string is falsy. -/
def freq_of_string (field : Packet → Option String) (packets_data : List Packet) :
    List (String × Nat) :=
  packets_data.foldl
    (fun m p => match field p with
      | some v => if v = "" then m else bump m v
      | none => m) []

/-- A frequency dict over an optional numeric field, counting only truthy
(non-zero) values (`if packet.get(source_port): ...`). -/
def freq_of_nat (field : Packet → Option Nat) (packets_data : List Packet) :
    List (Nat × Nat) :=
  packets_data.foldl
    (fun m p => match field p with
      | some v => if v = 0 then m else bump m v
      | none => m) []

/-- Mirrors `min(packet_sizes) if packet_sizes else 0`. -/
def sizes_min (sizes : List Nat) : Nat := (sizes.min?).getD 0

/-- Mirrors `max(packet_sizes) if packet_sizes else 0`. -/
def sizes_max (sizes : List Nat) : Nat := (sizes.max?).getD 0

/-- Mirrors `sum(packet_sizes) / len(packet_sizes) if packet_sizes else 0`, with
the Python true division modelled as exact division in `ℚ`. -/
def sizes_average (sizes : List Nat) : ℚ :=
  if sizes.isEmpty then 0 else (sizes.sum : ℚ) / (sizes.length : ℚ)

/-- The statistics built by `_calculate_statistics` for non-empty input. -/
def statistics_of (packets_data : List Packet) : Statistics :=
  let packet_sizes := packets_data.map Packet.packet_size
  { total_packets := packets_data.length
    protocol_distribution := protocol_distribution packets_data
    top_source_ips := top10 (freq_of_string Packet.source_ip packets_data)
    top_destination_ips := top10 (freq_of_string Packet.destination_ip packets_data)
    top_source_ports := top10 (freq_of_nat Packet.source_port packets_data)
    top_destination_ports := top10 (freq_of_nat Packet.destination_port packets_data)
    packet_size_stats :=
      { min := sizes_min packet_sizes
        max := sizes_max packet_sizes
        average := sizes_average packet_sizes
        total_bytes := packet_sizes.sum } }

/-- Model of `JSONExporter._calculate_statistics`: returns the empty dict `{}` for empty
input (modelled as `none`) and the populated statistics dict otherwise. -/
def calculate_statistics (packets_data : List Packet) : Option Statistics :=
  if packets_data.isEmpty then none else some (statistics_of packets_data)

/-- The membership predicate applied by the protocol pass (vacuously true when
the filter key is absent or falsy). -/
def protocol_pred (o : Option String) (p : Packet) : Bool :=
  match o with
  | some pr => if pr = "" then true else p.protocol == pr
  | none => true

/-- The membership predicate applied by the ip-address pass. -/
def ip_address_pred (o : Option String) (p : Packet) : Bool :=
  match o with
  | some ip => if ip = "" then true
      else p.source_ip == some ip || p.destination_ip == some ip
  | none => true

/-- The membership predicate applied by the port pass. -/
def port_pred (o : Option Nat) (p : Packet) : Bool :=
  match o with
  | some port => if port = 0 then true
      else p.source_port == some port || p.destination_port == some port
  | none => true

/-- The membership predicate applied by the min-size pass. -/
def min_size_pred (o : Option Nat) (p : Packet) : Bool :=
  match o with
  | some m => if m = 0 then true else decide (m ≤ p.packet_size)
  | none => true

/-- The membership predicate applied by the max-size pass. -/
def max_size_pred (o : Option Nat) (p : Packet) : Bool :=
  match o with
  | some m => if m = 0 then true else decide (p.packet_size ≤ m)
  | none => true

/-- The membership predicate applied by the start-time pass. -/
def start_time_pred (o : Option Nat) (p : Packet) : Bool :=
  match o with
  | some t => decide (t ≤ p.timestamp)
  | none => true

/-- The membership predicate applied by the end-time pass. -/
def end_time_pred (o : Option Nat) (p : Packet) : Bool :=
  match o with
  | some t => decide (p.timestamp ≤ t)
  | none => true

lemma filter_protocol_eq_filter (o : Option String) (f : List Packet) :
    filter_protocol o f = f.filter (protocol_pred o) := by
  cases o with
  | none =>
    rw [show protocol_pred none = fun _ => true from rfl, List.filter_true]
    rfl
  | some pr =>
    by_cases h : pr = ""
    · subst h
      rw [show protocol_pred (some "") = fun _ => true from by funext p; simp [protocol_pred],
        List.filter_true]
      simp [filter_protocol]
    · simp only [filter_protocol, if_neg h]
      exact List.filter_congr fun x _ => by simp [protocol_pred, h]

lemma filter_ip_address_eq_filter (o : Option String) (f : List Packet) :
    filter_ip_address o f = f.filter (ip_address_pred o) := by
  cases o with
  | none =>
    rw [show ip_address_pred none = fun _ => true from rfl, List.filter_true]
    rfl
  | some ip =>
    by_cases h : ip = ""
    · subst h
      rw [show ip_address_pred (some "") = fun _ => true from by funext p; simp [ip_address_pred],
        List.filter_true]
      simp [filter_ip_address]
    · simp only [filter_ip_address, if_neg h]
      exact List.filter_congr fun x _ => by simp [ip_address_pred, h]

lemma filter_port_eq_filter (o : Option Nat) (f : List Packet) :
    filter_port o f = f.filter (port_pred o) := by
  cases o with
  | none =>
    rw [show port_pred none = fun _ => true from rfl, List.filter_true]
    rfl
  | some port =>
    by_cases h : port = 0
    · subst h
      rw [show port_pred (some 0) = fun _ => true from by funext p; simp [port_pred],
        List.filter_true]
      simp [filter_port]
    · simp only [filter_port, if_neg h]
      exact List.filter_congr fun x _ => by simp [port_pred, h]

lemma filter_min_size_eq_filter (o : Option Nat) (f : List Packet) :
    filter_min_size o f = f.filter (min_size_pred o) := by
  cases o with
  | none =>
    rw [show min_size_pred none = fun _ => true from rfl, List.filter_true]
    rfl
  | some m =>
    by_cases h : m = 0
    · subst h
      rw [show min_size_pred (some 0) = fun _ => true from by funext p; simp [min_size_pred],
        List.filter_true]
      simp [filter_min_size]
    · simp only [filter_min_size, if_neg h]
      exact List.filter_congr fun x _ => by simp [min_size_pred, h]

lemma filter_max_size_eq_filter (o : Option Nat) (f : List Packet) :
    filter_max_size o f = f.filter (max_size_pred o) := by
  cases o with
  | none =>
    rw [show max_size_pred none = fun _ => true from rfl, List.filter_true]
    rfl
  | some m =>
    by_cases h : m = 0
    · subst h
      rw [show max_size_pred (some 0) = fun _ => true from by funext p; simp [max_size_pred],
        List.filter_true]
      simp [filter_max_size]
    · simp only [filter_max_size, if_neg h]
      exact List.filter_congr fun x _ => by simp [max_size_pred, h]

lemma filter_start_time_eq_filter (o : Option Nat) (f : List Packet) :
    filter_start_time o f = f.filter (start_time_pred o) := by
  cases o with
  | none =>
    rw [show start_time_pred none = fun _ => true from rfl, List.filter_true]
    rfl
  | some t =>
    exact List.filter_congr fun x _ => by simp [start_time_pred]

lemma filter_end_time_eq_filter (o : Option Nat) (f : List Packet) :
    filter_end_time o f = f.filter (end_time_pred o) := by
  cases o with
  | none =>
    rw [show end_time_pred none = fun _ => true from rfl, List.filter_true]
    rfl
  | some t =>
    exact List.filter_congr fun x _ => by simp [end_time_pred]

/-- The conjunction of the seven pass predicates: a record survives
`_apply_filters` exactly when it satisfies every active filter. -/
def matches_filters (filters : FilterSpec) (p : Packet) : Bool :=
  end_time_pred filters.end_time p &&
    (start_time_pred filters.start_time p &&
      (max_size_pred filters.max_size p &&
        (min_size_pred filters.min_size p &&
          (port_pred filters.port p &&
            (ip_address_pred filters.ip_address p && protocol_pred filters.protocol p)))))

lemma apply_filters_eq_filter (packets_data : List Packet) (filters : FilterSpec) :
    apply_filters packets_data filters = packets_data.filter (matches_filters filters) := by
  simp only [apply_filters, filter_protocol_eq_filter, filter_ip_address_eq_filter,
    filter_port_eq_filter, filter_min_size_eq_filter, filter_max_size_eq_filter,
    filter_start_time_eq_filter, filter_end_time_eq_filter, List.filter_filter]
  rfl

/-- A well-formed IPv4+TCP frame, used as a concrete input below. -/
def sampleTCPFrame : RawFrame :=
  { time := 100
    size := 80
    ip := some { src := "192.168.1.100", dst := "192.168.1.1" }
    ipv6 := none
    tcp := some { sport := 12345, dport := 80, flags := "S", seq := 1, ack := 0, window := 8192 }
    udp := none
    icmp := none
    summary := "Ether / IP / TCP"
    layers := ["Ether", "IP", "TCP"]
    malformed := false }

/-- A well-formed frame with no recognised network layer. -/
def sampleOtherFrame : RawFrame :=
  { time := 200
    size := 40
    ip := none
    ipv6 := none
    tcp := none
    udp := none
    icmp := none
    summary := "Ether / ARP"
    layers := ["Ether", "ARP"]
    malformed := false }

/-- A frame on which extraction raises an exception. -/
def sampleBadFrame : RawFrame :=
  { sampleOtherFrame with malformed := true }

/-- The record the classifier produces for `sampleTCPFrame`. -/
def sampleTCPRecord : Packet :=
  { timestamp := 100
    packet_size := 80
    file_name := "test.pcap"
    packet_data := some (PacketData.tcpData "S" 1 0 8192)
    source_ip := some "192.168.1.100"
    destination_ip := some "192.168.1.1"
    source_port := some 12345
    destination_port := some 80
    protocol := "TCP" }

/-- C1 counterexample: with cap `k = 0` (a falsy value, so the code skips
truncation) and a single well-formed frame (`n = 1 > 0 = k`), `parse_pcap_file`
classifies the frame instead of classifying only the first `0` frames. -/
theorem c1_counterexample :
    [sampleTCPFrame].length > 0 ∧
    parse_pcap_file [sampleTCPFrame] "test.pcap" 0 ≠
      classify_packets (List.take 0 [sampleTCPFrame]) "test.pcap" := by
  constructor
  · decide
  · decide

/-- C1 (amended): for every positive cap `k` and frame sequence longer than
`k`, `parse_pcap_file` classifies exactly the first `k` frames in original
order and never a frame beyond index `k - 1`. -/
theorem c1_batch_cap_truncates (frames : List RawFrame) (file_name : String)
    (k : Nat) (hk : 0 < k) (hn : k < frames.length) :
    parse_pcap_file frames file_name k = classify_packets (frames.take k) file_name := by
  unfold parse_pcap_file truncate_packets
  rw [if_pos ⟨hk.ne', hn⟩]

/-- Witness for C1 (amended) at `k = 1` over two frames. -/
theorem c1_batch_cap_truncates_witness :
    0 < 1 ∧ 1 < [sampleTCPFrame, sampleOtherFrame].length ∧
    parse_pcap_file [sampleTCPFrame, sampleOtherFrame] "test.pcap" 1 =
      classify_packets ([sampleTCPFrame, sampleOtherFrame].take 1) "test.pcap" :=
  ⟨Nat.zero_lt_one, by decide,
    c1_batch_cap_truncates [sampleTCPFrame, sampleOtherFrame] "test.pcap" 1
      Nat.zero_lt_one (by decide)⟩

/-- C2 counterexample: on the empty record sequence `_calculate_statistics`
returns the empty dict (`none`), which is not a report carrying a zero
total-packet count. -/
theorem c2_counterexample :
    ¬ ∃ stats, calculate_statistics [] = some stats ∧ stats.total_packets = 0 := by
  simp [calculate_statistics]

/-- C2 (amended): on the empty record sequence `_calculate_statistics` returns
the empty dict (modelled as `none`): no fault is raised (in particular no
division by zero is attempted), but no statistics fields — not even a zero
total packet count — are present in the result. -/
theorem c2_empty_input_empty_report : calculate_statistics [] = none := rfl

/-- C3: a frame carrying an IPv4 layer and a TCP layer (and whose extraction
does not raise) is classified with protocol label "TCP", the ports of the TCP layer,
and metadata holding exactly the TCP flags in string form, sequence
number, acknowledgment number and window size. -/
theorem c3_ipv4_tcp (frame : RawFrame) (file_name : String)
    (ip_layer : IPv4Layer) (tcp_layer : TCPLayer)
    (hip : frame.ip = some ip_layer) (htcp : frame.tcp = some tcp_layer)
    (hok : frame.malformed = false) :
    extract_packet_info frame file_name = some
      { timestamp := frame.time
        packet_size := frame.size
        file_name := file_name
        packet_data := some (PacketData.tcpData tcp_layer.flags tcp_layer.seq
          tcp_layer.ack tcp_layer.window)
        source_ip := some ip_layer.src
        destination_ip := some ip_layer.dst
        source_port := some tcp_layer.sport
        destination_port := some tcp_layer.dport
        protocol := "TCP" } := by
  simp [extract_packet_info, hok, hip, htcp]

/-- Witness for C3 at `sampleTCPFrame`. -/
theorem c3_ipv4_tcp_witness :
    sampleTCPFrame.ip = some { src := "192.168.1.100", dst := "192.168.1.1" } ∧
    sampleTCPFrame.tcp =
      some { sport := 12345, dport := 80, flags := "S", seq := 1, ack := 0, window := 8192 } ∧
    sampleTCPFrame.malformed = false ∧
    extract_packet_info sampleTCPFrame "test.pcap" = some sampleTCPRecord :=
  ⟨rfl, rfl, rfl, c3_ipv4_tcp sampleTCPFrame "test.pcap" _ _ rfl rfl rfl⟩

/-- C4: a frame with neither an IPv4 nor an IPv6 layer (and whose extraction
does not raise) is classified with protocol label "Other", no addresses, no
ports, and metadata holding the human-readable summary and the ordered list of
layer names. -/
theorem c4_other_fallback (frame : RawFrame) (file_name : String)
    (hip : frame.ip = none) (hip6 : frame.ipv6 = none)
    (hok : frame.malformed = false) :
    extract_packet_info frame file_name = some
      { timestamp := frame.time
        packet_size := frame.size
        file_name := file_name
        packet_data := some (PacketData.otherData frame.summary frame.layers)
        source_ip := none
        destination_ip := none
        source_port := none
        destination_port := none
        protocol := "Other" } := by
  simp [extract_packet_info, hok, hip, hip6]

/-- Witness for C4 at `sampleOtherFrame`. -/
theorem c4_other_fallback_witness :
    sampleOtherFrame.ip = none ∧ sampleOtherFrame.ipv6 = none ∧
    sampleOtherFrame.malformed = false ∧
    extract_packet_info sampleOtherFrame "test.pcap" = some
      { timestamp := 200
        packet_size := 40
        file_name := "test.pcap"
        packet_data := some (PacketData.otherData "Ether / ARP" ["Ether", "ARP"])
        source_ip := none
        destination_ip := none
        source_port := none
        destination_port := none
        protocol := "Other" } :=
  ⟨rfl, rfl, rfl, c4_other_fallback sampleOtherFrame "test.pcap" rfl rfl rfl⟩

/-- C5: `_apply_filters` is idempotent — filtering an already-filtered record
sequence with the same criteria changes nothing. -/
theorem c5_apply_filters_idempotent (R : List Packet) (S : FilterSpec) :
    apply_filters (apply_filters R S) S = apply_filters R S := by
  rw [apply_filters_eq_filter R S, apply_filters_eq_filter, List.filter_filter]
  exact List.filter_congr fun x _ => Bool.and_self (matches_filters S x)

/-- C6: `_apply_filters` never lengthens its input, returns an
order-preserving subsequence of it, and returns it unchanged when every
filter key is absent. -/
theorem c6_filter_monotone (R : List Packet) (S : FilterSpec) :
    (apply_filters R S).length ≤ R.length ∧
    (apply_filters R S).Sublist R ∧
    apply_filters R {} = R := by
  refine ⟨?_, ?_, rfl⟩
  · rw [apply_filters_eq_filter]
    exact List.length_filter_le _ _
  · rw [apply_filters_eq_filter]
    exact List.filter_sublist _

/-- C8: every record the classifier produces carries a protocol label from the
fixed set, has its address fields present together or absent together, has its
port fields present together or absent together, and a non-negative size. -/
theorem c8_record_invariant (frame : RawFrame) (file_name : String) (rec : Packet)
    (h : extract_packet_info frame file_name = some rec) :
    rec.protocol ∈ ["IP", "TCP", "UDP", "ICMP", "IPv6", "TCPv6", "UDPv6", "Other"] ∧
    (rec.source_ip.isSome ↔ rec.destination_ip.isSome) ∧
    (rec.source_port.isSome ↔ rec.destination_port.isSome) ∧
    0 ≤ rec.packet_size := by
  simp only [extract_packet_info] at h
  split at h
  · exact Option.noConfusion h
  · repeat' split at h
    all_goals injection h with h
    all_goals subst h
    all_goals exact ⟨by simp, by simp, by simp, Nat.zero_le _⟩

/-- Witness for C8 at `sampleTCPFrame`. -/
theorem c8_record_invariant_witness :
    extract_packet_info sampleTCPFrame "test.pcap" = some sampleTCPRecord ∧
    (sampleTCPRecord.protocol ∈ ["IP", "TCP", "UDP", "ICMP", "IPv6", "TCPv6", "UDPv6", "Other"] ∧
      (sampleTCPRecord.source_ip.isSome ↔ sampleTCPRecord.destination_ip.isSome) ∧
      (sampleTCPRecord.source_port.isSome ↔ sampleTCPRecord.destination_port.isSome) ∧
      0 ≤ sampleTCPRecord.packet_size) :=
  ⟨rfl, c8_record_invariant sampleTCPFrame "test.pcap" sampleTCPRecord rfl⟩

/-- C9: a frame whose extraction fails contributes no record, does not abort
the batch, and the surviving records keep the input order — classifying
`xs ++ bad :: ys` gives the records of `xs` followed by the records of `ys`. -/
theorem c9_failure_isolation (xs ys : List RawFrame) (bad : RawFrame)
    (file_name : String) (h : extract_packet_info bad file_name = none) :
    classify_packets (xs ++ bad :: ys) file_name =
      classify_packets xs file_name ++ classify_packets ys file_name := by
  simp [classify_packets, List.filterMap_append, List.filterMap_cons, h]

/-- Witness for C9 with a malformed frame between two good ones. -/
theorem c9_failure_isolation_witness :
    extract_packet_info sampleBadFrame "test.pcap" = none ∧
    classify_packets ([sampleTCPFrame] ++ sampleBadFrame :: [sampleOtherFrame]) "test.pcap" =
      classify_packets [sampleTCPFrame] "test.pcap" ++
        classify_packets [sampleOtherFrame] "test.pcap" :=
  ⟨rfl, c9_failure_isolation [sampleTCPFrame] [sampleOtherFrame] sampleBadFrame "test.pcap" rfl⟩

/-- C10: a filter key present with a falsy value — protocol `""`, port `0`,
min_size `0` or max_size `0` — imposes no constraint: the result is the same
as with the key absent. -/
theorem c10_falsy_filter_values (R : List Packet) (S : FilterSpec) :
    apply_filters R { S with protocol := some "" } =
      apply_filters R { S with protocol := none } ∧
    apply_filters R { S with port := some 0 } =
      apply_filters R { S with port := none } ∧
    apply_filters R { S with min_size := some 0 } =
      apply_filters R { S with min_size := none } ∧
    apply_filters R { S with max_size := some 0 } =
      apply_filters R { S with max_size := none } := by
  refine ⟨?_, ?_, ?_, ?_⟩ <;>
    simp [apply_filters, filter_protocol, filter_port, filter_min_size, filter_max_size]

/-- A concrete normalized record with no endpoints. -/
def samplePacketA : Packet :=
  { timestamp := 1
    packet_size := 40
    file_name := "test.pcap"
    packet_data := none
    source_ip := none
    destination_ip := none
    source_port := none
    destination_port := none
    protocol := "Other" }

/-- A concrete normalized record with endpoints. -/
def samplePacketB : Packet :=
  { timestamp := 2
    packet_size := 80
    file_name := "test.pcap"
    packet_data := some (PacketData.tcpData "S" 1 0 8192)
    source_ip := some "192.168.1.100"
    destination_ip := some "192.168.1.1"
    source_port := some 12345
    destination_port := some 80
    protocol := "TCP" }

/-- C7: on non-empty input the size statistics report the exact sum of the
record sizes, the least size, the greatest size, and the mean as the sum
divided by the record count. -/
theorem c7_size_statistics (R : List Packet) (h : R ≠ []) :
    calculate_statistics R = some (statistics_of R) ∧
    (statistics_of R).packet_size_stats.total_bytes = (R.map Packet.packet_size).sum ∧
    ((statistics_of R).packet_size_stats.min ∈ R.map Packet.packet_size ∧
      ∀ s ∈ R.map Packet.packet_size, (statistics_of R).packet_size_stats.min ≤ s) ∧
    ((statistics_of R).packet_size_stats.max ∈ R.map Packet.packet_size ∧
      ∀ s ∈ R.map Packet.packet_size, s ≤ (statistics_of R).packet_size_stats.max) ∧
    (statistics_of R).packet_size_stats.average =
      ((R.map Packet.packet_size).sum : ℚ) / (R.length : ℚ) := by
  have hne : R.map Packet.packet_size ≠ [] := fun hc => h (List.map_eq_nil_iff.mp hc)
  obtain ⟨m, hm⟩ : ∃ m, (R.map Packet.packet_size).min? = some m := by
    cases hs : R.map Packet.packet_size with
    | nil => exact absurd hs hne
    | cons a l => exact ⟨_, rfl⟩
  obtain ⟨M, hM⟩ : ∃ M, (R.map Packet.packet_size).max? = some M := by
    cases hs : R.map Packet.packet_size with
    | nil => exact absurd hs hne
    | cons a l => exact ⟨_, rfl⟩
  have hmin := (List.min?_eq_some_iff (fun a => Nat.le_refl a)
    (fun a b => min_choice a b) (fun a b c => le_min_iff)).mp hm
  have hmax := (List.max?_eq_some_iff (fun a => Nat.le_refl a)
    (fun a b => max_choice a b) (fun a b c => max_le_iff)).mp hM
  refine ⟨?_, rfl, ?_, ?_, ?_⟩
  · simp [calculate_statistics, h]
  · simpa [statistics_of, sizes_min, hm] using hmin
  · simpa [statistics_of, sizes_max, hM] using hmax
  · simp [statistics_of, sizes_average, hne, List.length_map]

/-- Witness for C7 on a two-record input. -/
theorem c7_size_statistics_witness :
    ([samplePacketA, samplePacketB] ≠ []) ∧
    (calculate_statistics [samplePacketA, samplePacketB] =
        some (statistics_of [samplePacketA, samplePacketB]) ∧
      (statistics_of [samplePacketA, samplePacketB]).packet_size_stats.total_bytes =
        ([samplePacketA, samplePacketB].map Packet.packet_size).sum ∧
      ((statistics_of [samplePacketA, samplePacketB]).packet_size_stats.min ∈
          [samplePacketA, samplePacketB].map Packet.packet_size ∧
        ∀ s ∈ [samplePacketA, samplePacketB].map Packet.packet_size,
          (statistics_of [samplePacketA, samplePacketB]).packet_size_stats.min ≤ s) ∧
      ((statistics_of [samplePacketA, samplePacketB]).packet_size_stats.max ∈
          [samplePacketA, samplePacketB].map Packet.packet_size ∧
        ∀ s ∈ [samplePacketA, samplePacketB].map Packet.packet_size,
          s ≤ (statistics_of [samplePacketA, samplePacketB]).packet_size_stats.max) ∧
      (statistics_of [samplePacketA, samplePacketB]).packet_size_stats.average =
        (([samplePacketA, samplePacketB].map Packet.packet_size).sum : ℚ) /
          (([samplePacketA, samplePacketB] : List Packet).length : ℚ)) :=
  ⟨by decide, c7_size_statistics [samplePacketA, samplePacketB] (by decide)⟩
